import Mathlib

/-
  Verification of the PostgreSQL connection-pool core
  (storages::postgres::detail::ConnectionPoolImpl, pool_impl.cpp).

  The pool is embedded as an executable state machine.  Pure per-operation
  behaviour (Push, Release, the Connect task body, the dirty-connection
  cleanup task body, Init) is a function on PoolState; the concurrent
  surface (Pop with its blocking wait, detached Connect and cleanup tasks,
  wakeups and deadline timeouts) is a step relation on a Machine state that
  additionally tracks which callers are blocked and the outcome of every
  finished Acquire call.  Guard objects (SizeGuard / SharedSizeGuard:
  increment a counter on construction, decrement on destruction,
  GetValue returning the post-increment value; the DontIncrement variant
  only decrements on destruction) are inlined into the steps exactly where
  the C++ constructs and destroys them; each guarded increment-check-release
  sequence is taken as one atomic step, which is the granularity the spec
  itself assumes ("races are resolved by checking the counter under a
  guard").
-/

namespace PgPool

/-- PoolSettings: min_size, max_size, max_queue_size, as in
storages::postgres::PoolSettings. -/
structure PoolSettings where
  min_size : Nat
  max_size : Nat
  max_queue_size : Nat
  deriving DecidableEq, Repr

/-- Connection: the state queries the pool makes on a physical connection
(IsIdle / IsConnected / IsInTransaction). -/
structure Connection where
  isIdle : Bool
  isConnected : Bool
  isInTransaction : Bool
  deriving DecidableEq, Repr

/-- Statistics counters of the pool that the pool code itself mutates.
`used` is a counter decremented by a guard, modelled as Int to keep
decrements exact; `account_total` counts calls to AccountConnectionStats
(the fold of a released connection's statistics into pool aggregates). -/
structure Stats where
  used : Int
  open_total : Nat
  drop_total : Nat
  error_total : Nat
  error_timeout : Nat
  queue_size_errors : Nat
  pool_exhaust_errors : Nat
  account_total : Nat
  deriving DecidableEq, Repr

def Stats.zero : Stats :=
  { used := 0, open_total := 0, drop_total := 0, error_total := 0,
    error_timeout := 0, queue_size_errors := 0, pool_exhaust_errors := 0,
    account_total := 0 }

/-- kRecentErrorThreshold from pool_impl.cpp. -/
def kRecentErrorThreshold : Nat := 2

/-- kRecentErrorPeriod from pool_impl.cpp, in seconds. -/
def kRecentErrorPeriod : Nat := 15

/-- PoolState: the shared mutable state of ConnectionPoolImpl.
`size` is the shared open-connection counter (size_), counting live
connections plus in-flight Connect tasks holding a SharedSizeGuard;
`queue` is the bounded idle queue (capacity max_size);
`pendingConnects` / `pendingCleanups` count detached Connect / cleanup
tasks not yet finished; `recentErrors` holds the timestamps recorded in
recent_conn_errors_ (a trailing-window counter,
`Modelled from the spec:` the RecentPeriod sliding-window counter class is
not under src/, the spec describes it as a sliding-window count of recent
connection failures over a 15 s trailing window). -/
structure PoolState where
  size : Nat
  wait_count : Nat
  queue : List Connection
  pendingConnects : Nat
  pendingCleanups : Nat
  recentErrors : List Nat
  stats : Stats
  deriving DecidableEq, Repr

/-- Number of recorded connection errors inside the trailing window at
time `now` (GetStatsForPeriod(kRecentErrorPeriod)). -/
def recentCount (now : Nat) (errs : List Nat) : Nat :=
  (errs.filter (fun t => now < t + kRecentErrorPeriod)).length

/-- DeleteConnection: deletes the connection (its destructor releases the
SharedSizeGuard it owns, decrementing the shared size counter) and
increments drop_total. -/
def deleteConnection (st : PoolState) : PoolState :=
  { st with size := st.size - 1,
            stats := { st.stats with drop_total := st.stats.drop_total + 1 } }

/-- AccountConnectionStats: folds a released connection's statistics into
the pool aggregates (modelled as a count of folds). -/
def accountConnectionStats (st : PoolState) : PoolState :=
  { st with stats := { st.stats with account_total := st.stats.account_total + 1 } }

/-- Push: try to push a connection into the bounded idle queue
(capacity settings.max_size, fixed at construction).  On success one
waiting acquirer is notified (the Bool result); if the queue is full the
connection is deleted via DeleteConnection instead. -/
def push (s : PoolSettings) (st : PoolState) (c : Connection) :
    PoolState × Bool :=
  if st.queue.length < s.max_size then
    ({ st with queue := st.queue ++ [c] }, true)
  else
    (deleteConnection st, false)

/-- Decrement of the `used` statistic performed by the DecGuard
(SizeGuard over stats_.connection.used constructed with DontIncrement:
it only decrements, on destruction). -/
def decUsed (st : PoolState) : PoolState :=
  { st with stats := { st.stats with used := st.stats.used - 1 } }

/-- Release(connection): grabs statistics if the connection is not in a
transaction; an idle connection is pushed back; a disconnected one is
counted as an error and deleted; a connected non-idle one is handed to a
detached cleanup task, together with the moved DecGuard (so `used` is not
decremented yet on that path). -/
def release (s : PoolSettings) (st0 : PoolState) (c : Connection) :
    PoolState :=
  let st := if !c.isInTransaction then accountConnectionStats st0 else st0
  if c.isIdle then
    decUsed (push s st c).1
  else if !c.isConnected then
    decUsed (deleteConnection
      { st with stats := { st.stats with error_total := st.stats.error_total + 1 } })
  else
    { st with pendingCleanups := st.pendingCleanups + 1 }

/-- Body of the detached dirty-connection cleanup task after
connection->Cleanup has run: `res` is the connection if Cleanup returned
without throwing (none models an escaped exception).  If it is idle
afterwards its statistics are folded and it is pushed; otherwise
error_total is incremented and the connection deleted.  The moved DecGuard
is destroyed when the task finishes, decrementing `used` on every path. -/
def cleanupFinish (s : PoolSettings) (st : PoolState)
    (res : Option Connection) : PoolState :=
  decUsed <|
    match res with
    | some c =>
      if c.isIdle then (push s (accountConnectionStats st) c).1
      else deleteConnection
        { st with stats := { st.stats with error_total := st.stats.error_total + 1 } }
    | none => deleteConnection
        { st with stats := { st.stats with error_total := st.stats.error_total + 1 } }

/-- Whole cleanup task: it calls connection->Cleanup with a timeout of
10 times the current network timeout (cmd_ctl->network * 10);
`cleanupResult` abstracts Cleanup followed by the IsIdle inspection. -/
def cleanupRun (s : PoolSettings) (st : PoolState) (network : Nat)
    (cleanupResult : Nat → Option Connection) : PoolState :=
  cleanupFinish s st (cleanupResult (network * 10))

/-- Outcome of one physical connection attempt inside the Connect task:
ConnectionTimeoutError / other ConnectionError (both recoverable),
a fatal Error (rethrown), or success. -/
inductive ConnectOutcome where
  | timeoutErr
  | connError
  | fatalErr
  | success
  deriving DecidableEq, Repr

def ConnectOutcome.isFailure : ConnectOutcome → Bool
  | .success => false
  | _ => true

/-- Body of the detached Connect task (given the attempt's outcome and the
time `now`): open_total is incremented first, before the physical connect
and regardless of its outcome; recoverable failures additionally count an
error, a drop and a recent-window error (plus error_timeout for the
timeout class) and release the size guard; a fatal error counts an error
and a drop and rethrows (the guard is destroyed during unwinding); on
success the new idle connection (carrying the moved guard) is pushed. -/
def connectStep (s : PoolSettings) (st0 : PoolState) (o : ConnectOutcome)
    (now : Nat) : PoolState :=
  let st := { st0 with stats := { st0.stats with open_total := st0.stats.open_total + 1 } }
  match o with
  | .timeoutErr =>
    { st with size := st.size - 1,
              recentErrors := now :: st.recentErrors,
              stats := { st.stats with
                error_timeout := st.stats.error_timeout + 1,
                error_total := st.stats.error_total + 1,
                drop_total := st.stats.drop_total + 1 } }
  | .connError =>
    { st with size := st.size - 1,
              recentErrors := now :: st.recentErrors,
              stats := { st.stats with
                error_total := st.stats.error_total + 1,
                drop_total := st.stats.drop_total + 1 } }
  | .fatalErr =>
    { st with size := st.size - 1,
              stats := { st.stats with
                error_total := st.stats.error_total + 1,
                drop_total := st.stats.drop_total + 1 } }
  | .success =>
    (push s st { isIdle := true, isConnected := true, isInTransaction := false }).1

/-- Init: throws InvalidConfig on an empty DSN or min_size > max_size;
otherwise detaches min_size Connect tasks, each holding a fresh
SharedSizeGuard (so the shared size counter starts at min_size). -/
def poolInit (dsn : String) (s : PoolSettings) : Except String PoolState :=
  if dsn.isEmpty then
    .error "PostgreSQL DSN is empty"
  else if s.min_size > s.max_size then
    .error "PostgreSQL pool max size is less than requested initial size"
  else
    .ok { size := s.min_size, wait_count := 0, queue := [],
          pendingConnects := s.min_size, pendingCleanups := 0,
          recentErrors := [], stats := Stats.zero }

/-- Outcome of one Acquire call, as seen by its caller. -/
inductive Outcome where
  | success
  | deadlineErr
  | queueExceeded
  | poolExhausted
  deriving DecidableEq, BEq, Repr

/-- Machine: the pool state plus the set of callers blocked inside Pop's
WaitUntil and the outcome of every finished Acquire call. -/
structure Machine where
  pool : PoolState
  waiting : List Nat
  outcomes : List (Nat × Outcome)
  deriving DecidableEq, Repr

/-- Entry of Acquire/Pop for caller `cid` at time `now`, up to the blocking
wait.  Mirrors ConnectionPoolImpl::Pop: deadline check; non-blocking idle
pop (on success Acquire increments `used`); SizeGuard on wait_count_ with
the queue-exceeded check on its post-increment value; SharedSizeGuard on
size_ with the capacity check on its post-increment value and the recent
connection-error circuit breaker; then the caller blocks (joins
`waiting`).  The guard on size_ is moved into the detached Connect task
when one is started and destroyed (decrementing) otherwise. -/
def popEnter (s : PoolSettings) (m : Machine) (cid : Nat)
    (deadlineReached : Bool) (now : Nat) : Machine :=
  if deadlineReached then
    { m with
      pool := { m.pool with stats :=
        { m.pool.stats with error_timeout := m.pool.stats.error_timeout + 1 } },
      outcomes := (cid, Outcome.deadlineErr) :: m.outcomes }
  else
    match m.pool.queue with
    | _c :: rest =>
      { m with
        pool := { m.pool with queue := rest, stats :=
          { m.pool.stats with used := m.pool.stats.used + 1 } },
        outcomes := (cid, Outcome.success) :: m.outcomes }
    | [] =>
      if m.pool.wait_count + 1 > s.max_queue_size then
        { m with
          pool := { m.pool with stats :=
            { m.pool.stats with queue_size_errors := m.pool.stats.queue_size_errors + 1 } },
          outcomes := (cid, Outcome.queueExceeded) :: m.outcomes }
      else
        if m.pool.size + 1 ≤ s.max_size then
          if recentCount now m.pool.recentErrors < kRecentErrorThreshold then
            { m with
              pool := { m.pool with
                wait_count := m.pool.wait_count + 1
                size := m.pool.size + 1
                pendingConnects := m.pool.pendingConnects + 1 }
              waiting := cid :: m.waiting }
          else
            { m with
              pool := { m.pool with wait_count := m.pool.wait_count + 1 }
              waiting := cid :: m.waiting }
        else
          { m with
            pool := { m.pool with wait_count := m.pool.wait_count + 1 }
            waiting := cid :: m.waiting }

/-- A blocked caller is woken by conn_available_ and pops a connection:
its Pop returns (releasing the wait_count guard) and Acquire increments
`used`. -/
def wakeStep (m : Machine) (cid : Nat) : Machine :=
  if cid ∈ m.waiting then
    match m.pool.queue with
    | _c :: rest =>
      let pool := { m.pool with
        queue := rest
        wait_count := m.pool.wait_count - 1
        stats := { m.pool.stats with used := m.pool.stats.used + 1 } }
      { pool := pool, waiting := m.waiting.erase cid,
        outcomes := (cid, Outcome.success) :: m.outcomes }
    | [] => m
  else m

/-- A blocked caller's deadline elapses with the idle queue still empty:
WaitUntil returns false, the wait_count guard is released,
pool_exhaust_errors is incremented and Pop throws. -/
def timeoutStep (m : Machine) (cid : Nat) : Machine :=
  if cid ∈ m.waiting ∧ m.pool.queue = [] then
    let pool := { m.pool with
      wait_count := m.pool.wait_count - 1
      stats := { m.pool.stats with
        pool_exhaust_errors := m.pool.stats.pool_exhaust_errors + 1 } }
    { pool := pool, waiting := m.waiting.erase cid,
      outcomes := (cid, Outcome.poolExhausted) :: m.outcomes }
  else m

/-- Events of the concurrent system: an Acquire call entering Pop, a
blocked caller waking or timing out, a detached Connect task finishing,
a Release, and a detached cleanup task finishing. -/
inductive Event where
  | acquire (cid : Nat) (deadlineReached : Bool) (now : Nat)
  | wake (cid : Nat)
  | deadlineTimeout (cid : Nat)
  | connectDone (o : ConnectOutcome) (now : Nat)
  | releaseConn (c : Connection)
  | cleanupDone (res : Option Connection)
  deriving DecidableEq, Repr

def step (s : PoolSettings) (m : Machine) (e : Event) : Machine :=
  match e with
  | .acquire cid dl now => popEnter s m cid dl now
  | .wake cid => wakeStep m cid
  | .deadlineTimeout cid => timeoutStep m cid
  | .connectDone o now =>
    if m.pool.pendingConnects = 0 then m
    else
      let p0 := { m.pool with pendingConnects := m.pool.pendingConnects - 1 }
      { m with pool := connectStep s p0 o now }
  | .releaseConn c => { m with pool := release s m.pool c }
  | .cleanupDone res =>
    if m.pool.pendingCleanups = 0 then m
    else
      let p0 := { m.pool with pendingCleanups := m.pool.pendingCleanups - 1 }
      { m with pool := cleanupFinish s p0 res }

def run (s : PoolSettings) (m : Machine) (es : List Event) : Machine :=
  es.foldl (step s) m

/-- Machine right after a successful Init. -/
def initMachine (s : PoolSettings) : Machine :=
  { pool := { size := s.min_size, wait_count := 0, queue := [],
              pendingConnects := s.min_size, pendingCleanups := 0,
              recentErrors := [], stats := Stats.zero },
    waiting := [], outcomes := [] }

/-- Number of finished Acquire calls with a given outcome. -/
def countOutcome (o : Outcome) (m : Machine) : Nat :=
  (m.outcomes.filter (fun p => p.2 == o)).length

/-- Sequence of Connect-task attempts (outcome and time), run from a given
state: the lives of several detached Connect tasks, serialized. -/
def runConnects (s : PoolSettings) (st : PoolState)
    (os : List (ConnectOutcome × Nat)) : PoolState :=
  os.foldl (fun st1 p => connectStep s st1 p.1 p.2) st

/-- Pool state with nothing open and zeroed statistics. -/
def emptyPool : PoolState :=
  { size := 0, wait_count := 0, queue := [], pendingConnects := 0,
    pendingCleanups := 0, recentErrors := [], stats := Stats.zero }

/-- Settings of the worked scenario of the spec:
min_size 2, max_size 5, max_queue_size 3. -/
def scenarioSettings : PoolSettings :=
  { min_size := 2, max_size := 5, max_queue_size := 3 }

/-- Schedule of the scenario: the two pre-warmed connections finish, nine
concurrent Acquire calls with a finite deadline arrive against a healthy
backend (callers 1..9), three Connect tasks started by the first three
queue misses succeed, the three blocked callers wake, and the last
caller's deadline elapses. -/
def scenarioEvents : List Event :=
  [ .connectDone .success 0, .connectDone .success 0,
    .acquire 1 false 0, .acquire 2 false 0,
    .acquire 3 false 0, .acquire 4 false 0, .acquire 5 false 0,
    .acquire 6 false 0, .acquire 7 false 0, .acquire 8 false 0,
    .connectDone .success 0, .connectDone .success 0, .connectDone .success 0,
    .wake 3, .wake 4, .wake 5,
    .acquire 9 false 0, .deadlineTimeout 9 ]

/-- Idle, connected connection (as produced by a successful Connect). -/
def exIdleConn : Connection :=
  { isIdle := true, isConnected := true, isInTransaction := false }

/-- Dirty connection: connected, not idle, not cleanly in a transaction. -/
def exDirtyConn : Connection :=
  { isIdle := false, isConnected := true, isInTransaction := false }

/-- Released connection found in closed state. -/
def exClosedConn : Connection :=
  { isIdle := false, isConnected := false, isInTransaction := false }

/-- Concrete pool state used to exercise the theorems: three connections
open, three waiting acquirers, an empty idle queue and two recent
connection errors recorded at time 0. -/
def exPool : PoolState :=
  { size := 3, wait_count := 3, queue := [], pendingConnects := 0,
    pendingCleanups := 0, recentErrors := [0, 0], stats := Stats.zero }

def exMachine : Machine :=
  { pool := exPool, waiting := [], outcomes := [] }

/-- Short event schedule used to exercise the size invariant. -/
def exEvents : List Event :=
  [ .acquire 1 false 0, .connectDone .success 0, .acquire 2 false 0,
    .releaseConn exDirtyConn, .cleanupDone (some exIdleConn),
    .acquire 3 true 0 ]

end PgPool

namespace PgPool

/- Helper lemmas shared by several developments below. -/

theorem push_fst_size_le (s : PoolSettings) (st : PoolState) (c : Connection) :
    (push s st c).1.size ≤ st.size := by
  unfold push
  split <;> simp [deleteConnection]

theorem connectStep_size_le (s : PoolSettings) (st : PoolState)
    (o : ConnectOutcome) (now : Nat) :
    (connectStep s st o now).size ≤ st.size := by
  cases o
  case timeoutErr => simp [connectStep]
  case connError => simp [connectStep]
  case fatalErr => simp [connectStep]
  case success =>
    simpa [connectStep] using
      push_fst_size_le s
        { st with stats := { st.stats with open_total := st.stats.open_total + 1 } }
        { isIdle := true, isConnected := true, isInTransaction := false }

theorem release_size_le (s : PoolSettings) (st : PoolState) (c : Connection) :
    (release s st c).size ≤ st.size := by
  unfold release
  cases hT : c.isInTransaction <;> cases hI : c.isIdle <;>
    cases hC : c.isConnected <;>
    simp [hT, hI, hC, decUsed, accountConnectionStats, deleteConnection, push] <;>
    split <;> simp

theorem cleanupFinish_size_le (s : PoolSettings) (st : PoolState)
    (res : Option Connection) :
    (cleanupFinish s st res).size ≤ st.size := by
  unfold cleanupFinish
  cases res with
  | none => simp [decUsed, deleteConnection]
  | some c =>
    cases hI : c.isIdle <;>
      simp [hI, decUsed, deleteConnection, accountConnectionStats, push] <;>
      split <;> simp

theorem popEnter_size_le (s : PoolSettings) (m : Machine) (cid : Nat)
    (dl : Bool) (now : Nat) (h : m.pool.size ≤ s.max_size) :
    (popEnter s m cid dl now).pool.size ≤ s.max_size := by
  unfold popEnter
  split
  · exact h
  · split
    · exact h
    · split
      · exact h
      · split
        · split
          · simp_all
          · exact h
        · exact h

theorem wakeStep_pool_size (m : Machine) (cid : Nat) :
    (wakeStep m cid).pool.size = m.pool.size := by
  unfold wakeStep
  split
  · split <;> rfl
  · rfl

theorem timeoutStep_pool_size (m : Machine) (cid : Nat) :
    (timeoutStep m cid).pool.size = m.pool.size := by
  unfold timeoutStep
  split <;> rfl

theorem step_size_le (s : PoolSettings) (m : Machine) (e : Event)
    (h : m.pool.size ≤ s.max_size) :
    (step s m e).pool.size ≤ s.max_size := by
  cases e with
  | acquire cid dl now => exact popEnter_size_le s m cid dl now h
  | wake cid =>
    show (wakeStep m cid).pool.size ≤ s.max_size
    rw [wakeStep_pool_size]; exact h
  | deadlineTimeout cid =>
    show (timeoutStep m cid).pool.size ≤ s.max_size
    rw [timeoutStep_pool_size]; exact h
  | connectDone o now =>
    simp only [step]
    split
    · exact h
    · exact le_trans
        (connectStep_size_le s
          { m.pool with pendingConnects := m.pool.pendingConnects - 1 } o now) h
  | releaseConn c => exact le_trans (release_size_le s m.pool c) h
  | cleanupDone res =>
    simp only [step]
    split
    · exact h
    · exact le_trans
        (cleanupFinish_size_le s
          { m.pool with pendingCleanups := m.pool.pendingCleanups - 1 } res) h

theorem run_size_le (s : PoolSettings) (es : List Event) (m : Machine)
    (h : m.pool.size ≤ s.max_size) :
    (run s m es).pool.size ≤ s.max_size := by
  induction es generalizing m with
  | nil => exact h
  | cons e es ih => exact ih (step s m e) (step_size_le s m e h)

end PgPool

namespace PgPool

/-- C1: for every sequence of Acquire/Release operations (with their
background connect, wakeup, timeout and cleanup events) run from a
freshly initialised pool whose min_size does not exceed max_size, the
shared open-connection counter never exceeds max_size; and an
asynchronous connection creation is triggered from Acquire only when the
counter, incremented under the size guard, is still at most max_size. -/
theorem pool_size_never_exceeds_max (s : PoolSettings)
    (h : s.min_size ≤ s.max_size) :
    (∀ es : List Event, (run s (initMachine s) es).pool.size ≤ s.max_size) ∧
    (∀ (m : Machine) (cid : Nat) (dl : Bool) (now : Nat),
      (popEnter s m cid dl now).pool.pendingConnects ≠ m.pool.pendingConnects →
      (popEnter s m cid dl now).pool.size = m.pool.size + 1 ∧
      m.pool.size + 1 ≤ s.max_size) := by
  constructor
  · intro es
    exact run_size_le s es (initMachine s) h
  · intro m cid dl now
    unfold popEnter
    split
    · intro hne; simp at hne
    · split
      · intro hne; simp at hne
      · split
        · intro hne; simp at hne
        · split
          · split
            · intro _hne
              refine ⟨rfl, by assumption⟩
            · intro hne; simp at hne
          · intro hne; simp at hne

/-- Witness for the size invariant: the scenario settings satisfy the
hypothesis and a concrete schedule stays within the bound. -/
theorem pool_size_never_exceeds_max_witness :
    scenarioSettings.min_size ≤ scenarioSettings.max_size ∧
    (run scenarioSettings (initMachine scenarioSettings) exEvents).pool.size ≤
      scenarioSettings.max_size :=
  ⟨by decide,
   (pool_size_never_exceeds_max scenarioSettings (by decide)).1 exEvents⟩

/-- C2: an Acquire that misses the idle queue increments the
waiting-acquirer counter; if the incremented value exceeds max_queue_size
the call fails immediately with the queue-exhausted error: the
queue-size-error counter is bumped, the caller does not block, no new
connection is attempted, and the waiting counter is back to its previous
value on exit. -/
theorem acquire_queue_exceeded_fails_fast (s : PoolSettings) (m : Machine)
    (cid now : Nat) (hq : m.pool.queue = [])
    (hw : s.max_queue_size < m.pool.wait_count + 1) :
    (popEnter s m cid false now).outcomes =
      (cid, Outcome.queueExceeded) :: m.outcomes ∧
    (popEnter s m cid false now).pool.stats.queue_size_errors =
      m.pool.stats.queue_size_errors + 1 ∧
    (popEnter s m cid false now).pool.wait_count = m.pool.wait_count ∧
    (popEnter s m cid false now).pool.pendingConnects =
      m.pool.pendingConnects ∧
    (popEnter s m cid false now).pool.size = m.pool.size ∧
    (popEnter s m cid false now).waiting = m.waiting := by
  unfold popEnter
  simp [hq, hw]

/-- Witness for the queue-exceeded fast failure on a concrete machine
with three waiters and max_queue_size 3. -/
theorem acquire_queue_exceeded_fails_fast_witness :
    (popEnter scenarioSettings exMachine 7 false 0).outcomes =
      (7, Outcome.queueExceeded) :: exMachine.outcomes :=
  (acquire_queue_exceeded_fails_fast scenarioSettings exMachine 7 0 rfl
    (by decide)).1

/-- C3: a pool with min_size 2, max_size 5, max_queue_size 3 and nine
concurrent Acquire calls against a healthy backend with a finite
deadline (schedule scenarioEvents): exactly five calls succeed, exactly
three of the excess callers fail with the queue-exceeded error, and the
remaining one waits until its deadline elapses and fails with the
pool-exhausted error; the pool ends with five open connections and no
waiters. -/
theorem nine_acquires_scenario :
    countOutcome Outcome.success
      (run scenarioSettings (initMachine scenarioSettings) scenarioEvents) = 5 ∧
    countOutcome Outcome.queueExceeded
      (run scenarioSettings (initMachine scenarioSettings) scenarioEvents) = 3 ∧
    countOutcome Outcome.poolExhausted
      (run scenarioSettings (initMachine scenarioSettings) scenarioEvents) = 1 ∧
    (run scenarioSettings (initMachine scenarioSettings) scenarioEvents).outcomes.length = 9 ∧
    (run scenarioSettings (initMachine scenarioSettings) scenarioEvents).pool.size = 5 ∧
    (run scenarioSettings (initMachine scenarioSettings) scenarioEvents).waiting = [] := by
  decide

/-- C4: an Acquire whose deadline has already elapsed fails immediately
with the deadline error: error_timeout is bumped, the idle queue is not
popped, no connection creation is attempted, the open-connection counter
is untouched and the caller does not block. -/
theorem acquire_elapsed_deadline_fails_fast (s : PoolSettings) (m : Machine)
    (cid now : Nat) :
    (popEnter s m cid true now).outcomes =
      (cid, Outcome.deadlineErr) :: m.outcomes ∧
    (popEnter s m cid true now).pool.queue = m.pool.queue ∧
    (popEnter s m cid true now).pool.pendingConnects =
      m.pool.pendingConnects ∧
    (popEnter s m cid true now).pool.size = m.pool.size ∧
    (popEnter s m cid true now).pool.stats.error_timeout =
      m.pool.stats.error_timeout + 1 ∧
    (popEnter s m cid true now).waiting = m.waiting := by
  unfold popEnter
  simp

end PgPool

namespace PgPool

theorem recentCount_eq_zero_of_aged (errs : List Nat) (t0 later : Nat)
    (hall : ∀ t ∈ errs, t ≤ t0) (hlate : t0 + kRecentErrorPeriod ≤ later) :
    recentCount later errs = 0 := by
  induction errs with
  | nil => rfl
  | cons t ts ih =>
    have h1 : t ≤ t0 := hall t (List.mem_cons_self t ts)
    have hnot : ¬ later < t + kRecentErrorPeriod := by omega
    have h2 : ∀ x ∈ ts, x ≤ t0 := fun x hx => hall x (List.mem_cons_of_mem t hx)
    simpa [recentCount, List.filter_cons, hnot] using ih h2

/-- C5: the circuit breaker gates connection creation: a new physical
connection attempt is triggered from Acquire only if the number of
recoverable connection failures recorded in the trailing
kRecentErrorPeriod window (15 s) is strictly below kRecentErrorThreshold
(2); once the recorded count reaches the threshold no connection is
attempted, even when open-connection capacity remains; and once every
recorded failure has aged past the window the recent count is zero
again. -/
theorem circuit_breaker_gates_connects (s : PoolSettings) (m : Machine)
    (cid : Nat) (dl : Bool) (now : Nat) :
    kRecentErrorThreshold = 2 ∧ kRecentErrorPeriod = 15 ∧
    ((popEnter s m cid dl now).pool.pendingConnects ≠ m.pool.pendingConnects →
      recentCount now m.pool.recentErrors < kRecentErrorThreshold) ∧
    (kRecentErrorThreshold ≤ recentCount now m.pool.recentErrors →
      (popEnter s m cid dl now).pool.pendingConnects =
        m.pool.pendingConnects) ∧
    (∀ (errs : List Nat) (t0 later : Nat), (∀ t ∈ errs, t ≤ t0) →
      t0 + kRecentErrorPeriod ≤ later → recentCount later errs = 0) := by
  refine ⟨rfl, rfl, ?_, ?_, ?_⟩
  · unfold popEnter
    split
    · intro hne; simp at hne
    · split
      · intro hne; simp at hne
      · split
        · intro hne; simp at hne
        · split
          · split
            · intro _hne; assumption
            · intro hne; simp at hne
          · intro hne; simp at hne
  · intro hge
    unfold popEnter
    split
    · rfl
    · split
      · rfl
      · split
        · rfl
        · split
          · split
            · exfalso; omega
            · rfl
          · rfl
  · exact fun errs t0 later hall hlate =>
      recentCount_eq_zero_of_aged errs t0 later hall hlate

/-- Witness for the circuit breaker: two recorded errors at time 0 block
connection creation of an Acquire at time 0 on the concrete machine. -/
theorem circuit_breaker_gates_connects_witness :
    (popEnter scenarioSettings exMachine 1 false 0).pool.pendingConnects =
      exMachine.pool.pendingConnects :=
  (circuit_breaker_gates_connects scenarioSettings exMachine 1 false
    0).2.2.2.1 (by decide)

/-- C6: a released connection that is connected but neither idle nor in a
transaction is handed to a detached cleanup task and the releasing
caller returns at once (queue, size and wait count untouched); the task
calls Cleanup with a timeout of 10 times the current network timeout; if
the connection is idle afterwards its statistics are folded into the
pool aggregates and it re-enters the idle queue, and on failure or
exception it is destroyed and the pool error counter is incremented. -/
theorem dirty_release_async_cleanup (s : PoolSettings) (st : PoolState)
    (c : Connection) (hc : c.isConnected = true) (hi : c.isIdle = false)
    (ht : c.isInTransaction = false) :
    ((release s st c).pendingCleanups = st.pendingCleanups + 1 ∧
     (release s st c).queue = st.queue ∧
     (release s st c).size = st.size ∧
     (release s st c).wait_count = st.wait_count ∧
     (release s st c).stats.used = st.stats.used) ∧
    (∀ (st2 : PoolState) (network : Nat) (f : Nat → Option Connection)
        (c2 : Connection), f (network * 10) = some c2 → c2.isIdle = true →
      st2.queue.length < s.max_size →
      (cleanupRun s st2 network f).queue = st2.queue ++ [c2] ∧
      (cleanupRun s st2 network f).stats.account_total =
        st2.stats.account_total + 1 ∧
      (cleanupRun s st2 network f).size = st2.size ∧
      (cleanupRun s st2 network f).stats.error_total =
        st2.stats.error_total) ∧
    (∀ (st2 : PoolState) (network : Nat) (f : Nat → Option Connection)
        (c2 : Connection), f (network * 10) = some c2 → c2.isIdle = false →
      (cleanupRun s st2 network f).stats.error_total =
        st2.stats.error_total + 1 ∧
      (cleanupRun s st2 network f).stats.drop_total =
        st2.stats.drop_total + 1 ∧
      (cleanupRun s st2 network f).size = st2.size - 1) ∧
    (∀ (st2 : PoolState) (network : Nat) (f : Nat → Option Connection),
      f (network * 10) = none →
      (cleanupRun s st2 network f).stats.error_total =
        st2.stats.error_total + 1 ∧
      (cleanupRun s st2 network f).stats.drop_total =
        st2.stats.drop_total + 1 ∧
      (cleanupRun s st2 network f).size = st2.size - 1) := by
  refine ⟨?_, ?_, ?_, ?_⟩
  · unfold release
    simp [hc, hi, ht, accountConnectionStats]
  · intro st2 network f c2 hf hidle hlen
    unfold cleanupRun cleanupFinish
    rw [hf]
    simp [hidle, decUsed, push, accountConnectionStats, hlen]
  · intro st2 network f c2 hf hidle
    unfold cleanupRun cleanupFinish
    rw [hf]
    simp [hidle, decUsed, deleteConnection]
  · intro st2 network f hf
    unfold cleanupRun cleanupFinish
    rw [hf]
    simp [decUsed, deleteConnection]

/-- Witness for the dirty-release cleanup: a concrete dirty connection is
handed to a cleanup task, and a successful cleanup pushes it back. -/
theorem dirty_release_async_cleanup_witness :
    (release scenarioSettings exPool exDirtyConn).pendingCleanups =
      exPool.pendingCleanups + 1 ∧
    (cleanupRun scenarioSettings exPool 7
      (fun _ => some exIdleConn)).queue = exPool.queue ++ [exIdleConn] :=
  ⟨((dirty_release_async_cleanup scenarioSettings exPool exDirtyConn rfl rfl
      rfl).1).1,
   ((dirty_release_async_cleanup scenarioSettings exPool exDirtyConn rfl rfl
      rfl).2.1 exPool 7 (fun _ => some exIdleConn) exIdleConn rfl rfl
      (by decide)).1⟩

/-- C7: a push into the bounded idle queue below capacity enters the
queue and notifies one waiting acquirer; a push at capacity is rejected:
the connection is destroyed (the drop counter is incremented and its
size reservation released) rather than silently dropped. -/
theorem push_respects_capacity (s : PoolSettings) (st : PoolState)
    (c : Connection) :
    (st.queue.length < s.max_size →
      push s st c = ({ st with queue := st.queue ++ [c] }, true)) ∧
    (s.max_size ≤ st.queue.length →
      (push s st c).2 = false ∧
      (push s st c).1.queue = st.queue ∧
      (push s st c).1.stats.drop_total = st.stats.drop_total + 1 ∧
      (push s st c).1.size = st.size - 1) := by
  constructor
  · intro hlt
    simp [push, hlt]
  · intro hge
    have hnot : ¬ st.queue.length < s.max_size := by omega
    simp [push, hnot, deleteConnection]

/-- Witness for the bounded push: below capacity the connection enters
the queue; with capacity zero the push is rejected. -/
theorem push_respects_capacity_witness :
    push scenarioSettings exPool exIdleConn =
      ({ exPool with queue := exPool.queue ++ [exIdleConn] }, true) ∧
    (push { min_size := 0, max_size := 0, max_queue_size := 0 } exPool
      exIdleConn).2 = false :=
  ⟨(push_respects_capacity scenarioSettings exPool exIdleConn).1 (by decide),
   ((push_respects_capacity { min_size := 0, max_size := 0, max_queue_size := 0 }
      exPool exIdleConn).2 (by decide)).1⟩

end PgPool

namespace PgPool

/-- C8: pool construction raises a fatal configuration error immediately
if and only if the DSN is empty or min_size exceeds max_size; otherwise
construction succeeds with min_size pre-warming Connect tasks detached
(and the shared size counter already holding their reservations). -/
theorem pool_init_config_validation (dsn : String) (s : PoolSettings) :
    ((∃ e, poolInit dsn s = Except.error e) ↔
      (dsn.isEmpty = true ∨ s.min_size > s.max_size)) ∧
    (∀ st : PoolState, poolInit dsn s = Except.ok st →
      st.pendingConnects = s.min_size ∧ st.size = s.min_size ∧
      st.queue = [] ∧ st.stats = Stats.zero) := by
  unfold poolInit
  by_cases h1 : dsn.isEmpty <;> by_cases h2 : s.min_size > s.max_size <;>
    simp [h1, h2]

/-- Witness for construction validation: an empty DSN fails, a proper
DSN with the scenario settings succeeds and pre-warms min_size
connections. -/
theorem pool_init_config_validation_witness :
    (∃ e, poolInit "" scenarioSettings = Except.error e) ∧
    (∃ st, poolInit "postgresql://host/db" scenarioSettings = Except.ok st ∧
      st.pendingConnects = scenarioSettings.min_size) :=
  ⟨(pool_init_config_validation "" scenarioSettings).1.mpr
      (Or.inl (by decide)),
   ⟨_, rfl,
    ((pool_init_config_validation "postgresql://host/db" scenarioSettings).2
      _ rfl).1⟩⟩

theorem push_fst_used (s : PoolSettings) (st : PoolState) (c : Connection) :
    (push s st c).1.stats.used = st.stats.used := by
  unfold push
  split <;> rfl

theorem push_fst_pendingCleanups (s : PoolSettings) (st : PoolState)
    (c : Connection) :
    (push s st c).1.pendingCleanups = st.pendingCleanups := by
  unfold push
  split <;> rfl

/-- C9: every Release decrements the `used` statistic exactly once on
every path: the idle and the disconnected paths decrement it before
returning; on the dirty path the decrement guard moves into the detached
cleanup task, so `used` is unchanged when Release returns and is
decremented exactly once when the cleanup task finishes, whether it
pushes the connection back or destroys it. -/
theorem release_decrements_used_once (s : PoolSettings) (st : PoolState)
    (c : Connection) :
    (c.isIdle = true →
      (release s st c).stats.used = st.stats.used - 1 ∧
      (release s st c).pendingCleanups = st.pendingCleanups) ∧
    (c.isIdle = false → c.isConnected = false →
      (release s st c).stats.used = st.stats.used - 1 ∧
      (release s st c).pendingCleanups = st.pendingCleanups) ∧
    (c.isIdle = false → c.isConnected = true →
      (release s st c).stats.used = st.stats.used ∧
      (release s st c).pendingCleanups = st.pendingCleanups + 1) ∧
    (∀ (st2 : PoolState) (res : Option Connection),
      (cleanupFinish s st2 res).stats.used = st2.stats.used - 1) := by
  refine ⟨?_, ?_, ?_, ?_⟩
  · intro hi
    cases ht : c.isInTransaction <;>
      simp [release, hi, ht, decUsed, push_fst_used, push_fst_pendingCleanups,
        accountConnectionStats]
  · intro hi hc
    cases ht : c.isInTransaction <;>
      simp [release, hi, hc, ht, decUsed, deleteConnection,
        accountConnectionStats]
  · intro hi hc
    cases ht : c.isInTransaction <;>
      simp [release, hi, hc, ht, accountConnectionStats]
  · intro st2 res
    cases res with
    | none => simp [cleanupFinish, decUsed, deleteConnection]
    | some c2 =>
      cases hi : c2.isIdle <;>
        simp [cleanupFinish, hi, decUsed, deleteConnection, push_fst_used,
          accountConnectionStats]

/-- Witness for the used-statistic accounting at concrete released
connections: idle path, dirty path, and the cleanup task finish. -/
theorem release_decrements_used_once_witness :
    (release scenarioSettings exPool exIdleConn).stats.used =
      exPool.stats.used - 1 ∧
    (release scenarioSettings exPool exDirtyConn).stats.used =
      exPool.stats.used ∧
    (cleanupFinish scenarioSettings exPool (some exIdleConn)).stats.used =
      exPool.stats.used - 1 :=
  ⟨((release_decrements_used_once scenarioSettings exPool exIdleConn).1
      rfl).1,
   ((release_decrements_used_once scenarioSettings exPool exDirtyConn).2.2.1
      rfl rfl).1,
   (release_decrements_used_once scenarioSettings exPool exClosedConn).2.2.2
      exPool (some exIdleConn)⟩

end PgPool

namespace PgPool

theorem push_fst_open_total (s : PoolSettings) (st : PoolState)
    (c : Connection) :
    (push s st c).1.stats.open_total = st.stats.open_total := by
  unfold push
  split <;> rfl

@[simp] theorem isFailure_timeoutErr :
    ConnectOutcome.timeoutErr.isFailure = true := rfl

@[simp] theorem isFailure_connError :
    ConnectOutcome.connError.isFailure = true := rfl

@[simp] theorem isFailure_fatalErr :
    ConnectOutcome.fatalErr.isFailure = true := rfl

@[simp] theorem isFailure_success :
    ConnectOutcome.success.isFailure = false := rfl

theorem filter_success_add_filter_failure
    (os : List (ConnectOutcome × Nat)) :
    (os.filter (fun p => p.1 == ConnectOutcome.success)).length +
      (os.filter (fun p => p.1.isFailure)).length = os.length := by
  induction os with
  | nil => rfl
  | cons p ts ih =>
    obtain ⟨o, t⟩ := p
    cases o <;> simp [List.filter_cons] <;> omega

theorem runConnects_counters (s : PoolSettings)
    (os : List (ConnectOutcome × Nat)) (st : PoolState)
    (h : st.queue.length +
      (os.filter (fun p => p.1 == ConnectOutcome.success)).length ≤
        s.max_size) :
    (runConnects s st os).stats.open_total =
      st.stats.open_total + os.length ∧
    (runConnects s st os).stats.drop_total =
      st.stats.drop_total + (os.filter (fun p => p.1.isFailure)).length ∧
    (runConnects s st os).queue.length =
      st.queue.length +
        (os.filter (fun p => p.1 == ConnectOutcome.success)).length := by
  induction os generalizing st with
  | nil => simp [runConnects]
  | cons p ts ih =>
    obtain ⟨o, t⟩ := p
    cases o with
    | success =>
      have hq : st.queue.length < s.max_size := by
        simp [List.filter_cons] at h
        omega
      have e1 : (connectStep s st ConnectOutcome.success t).stats.open_total
          = st.stats.open_total + 1 := by
        simp [connectStep, push, hq]
      have e2 : (connectStep s st ConnectOutcome.success t).stats.drop_total
          = st.stats.drop_total := by
        simp [connectStep, push, hq]
      have e3 : (connectStep s st ConnectOutcome.success t).queue.length
          = st.queue.length + 1 := by
        simp [connectStep, push, hq]
      have h2 : (connectStep s st ConnectOutcome.success t).queue.length +
          (ts.filter (fun p => p.1 == ConnectOutcome.success)).length ≤
            s.max_size := by
        rw [e3]
        simp [List.filter_cons] at h
        omega
      obtain ⟨h3, h4, h5⟩ := ih (connectStep s st ConnectOutcome.success t) h2
      refine ⟨?_, ?_, ?_⟩
      · show (runConnects s (connectStep s st ConnectOutcome.success t)
            ts).stats.open_total = _
        rw [h3, e1]
        simp
        omega
      · show (runConnects s (connectStep s st ConnectOutcome.success t)
            ts).stats.drop_total = _
        rw [h4, e2, List.filter_cons]
        simp
        try omega
      · show (runConnects s (connectStep s st ConnectOutcome.success t)
            ts).queue.length = _
        rw [h5, e3, List.filter_cons]
        simp
        try omega
    | timeoutErr =>
      have e1 : (connectStep s st ConnectOutcome.timeoutErr t).stats.open_total
          = st.stats.open_total + 1 := rfl
      have e2 : (connectStep s st ConnectOutcome.timeoutErr t).stats.drop_total
          = st.stats.drop_total + 1 := rfl
      have e3 : (connectStep s st ConnectOutcome.timeoutErr t).queue.length
          = st.queue.length := rfl
      have h2 : (connectStep s st ConnectOutcome.timeoutErr t).queue.length +
          (ts.filter (fun p => p.1 == ConnectOutcome.success)).length ≤
            s.max_size := by
        rw [e3]
        simp [List.filter_cons] at h
        omega
      obtain ⟨h3, h4, h5⟩ := ih (connectStep s st ConnectOutcome.timeoutErr t) h2
      refine ⟨?_, ?_, ?_⟩
      · show (runConnects s (connectStep s st ConnectOutcome.timeoutErr t)
            ts).stats.open_total = _
        rw [h3, e1]
        simp
        omega
      · show (runConnects s (connectStep s st ConnectOutcome.timeoutErr t)
            ts).stats.drop_total = _
        rw [h4, e2, List.filter_cons]
        simp
        try omega
      · show (runConnects s (connectStep s st ConnectOutcome.timeoutErr t)
            ts).queue.length = _
        rw [h5, e3, List.filter_cons]
        simp
        try omega
    | connError =>
      have e1 : (connectStep s st ConnectOutcome.connError t).stats.open_total
          = st.stats.open_total + 1 := rfl
      have e2 : (connectStep s st ConnectOutcome.connError t).stats.drop_total
          = st.stats.drop_total + 1 := rfl
      have e3 : (connectStep s st ConnectOutcome.connError t).queue.length
          = st.queue.length := rfl
      have h2 : (connectStep s st ConnectOutcome.connError t).queue.length +
          (ts.filter (fun p => p.1 == ConnectOutcome.success)).length ≤
            s.max_size := by
        rw [e3]
        simp [List.filter_cons] at h
        omega
      obtain ⟨h3, h4, h5⟩ := ih (connectStep s st ConnectOutcome.connError t) h2
      refine ⟨?_, ?_, ?_⟩
      · show (runConnects s (connectStep s st ConnectOutcome.connError t)
            ts).stats.open_total = _
        rw [h3, e1]
        simp
        omega
      · show (runConnects s (connectStep s st ConnectOutcome.connError t)
            ts).stats.drop_total = _
        rw [h4, e2, List.filter_cons]
        simp
        try omega
      · show (runConnects s (connectStep s st ConnectOutcome.connError t)
            ts).queue.length = _
        rw [h5, e3, List.filter_cons]
        simp
        try omega
    | fatalErr =>
      have e1 : (connectStep s st ConnectOutcome.fatalErr t).stats.open_total
          = st.stats.open_total + 1 := rfl
      have e2 : (connectStep s st ConnectOutcome.fatalErr t).stats.drop_total
          = st.stats.drop_total + 1 := rfl
      have e3 : (connectStep s st ConnectOutcome.fatalErr t).queue.length
          = st.queue.length := rfl
      have h2 : (connectStep s st ConnectOutcome.fatalErr t).queue.length +
          (ts.filter (fun p => p.1 == ConnectOutcome.success)).length ≤
            s.max_size := by
        rw [e3]
        simp [List.filter_cons] at h
        omega
      obtain ⟨h3, h4, h5⟩ := ih (connectStep s st ConnectOutcome.fatalErr t) h2
      refine ⟨?_, ?_, ?_⟩
      · show (runConnects s (connectStep s st ConnectOutcome.fatalErr t)
            ts).stats.open_total = _
        rw [h3, e1]
        simp
        omega
      · show (runConnects s (connectStep s st ConnectOutcome.fatalErr t)
            ts).stats.drop_total = _
        rw [h4, e2, List.filter_cons]
        simp
        try omega
      · show (runConnects s (connectStep s st ConnectOutcome.fatalErr t)
            ts).queue.length = _
        rw [h5, e3, List.filter_cons]
        simp
        try omega

/-- C10: open_total is incremented at the start of every Connect task,
before the physical connect and regardless of its outcome; a failed
attempt increments both open_total and drop_total; hence over any run of
Connect tasks from a fresh pool (short enough for the idle queue) the
number of successfully created connections equals open_total minus
drop_total, not open_total. -/
theorem open_total_counts_attempts (s : PoolSettings) :
    (∀ (st : PoolState) (o : ConnectOutcome) (now : Nat),
      (connectStep s st o now).stats.open_total =
        st.stats.open_total + 1) ∧
    (∀ (st : PoolState) (o : ConnectOutcome) (now : Nat),
      o.isFailure = true →
      (connectStep s st o now).stats.drop_total =
        st.stats.drop_total + 1) ∧
    (∀ os : List (ConnectOutcome × Nat), os.length ≤ s.max_size →
      (runConnects s emptyPool os).stats.open_total = os.length ∧
      (runConnects s emptyPool os).stats.drop_total =
        (os.filter (fun p => p.1.isFailure)).length ∧
      (os.filter (fun p => p.1 == ConnectOutcome.success)).length =
        (runConnects s emptyPool os).stats.open_total -
          (runConnects s emptyPool os).stats.drop_total) := by
  refine ⟨?_, ?_, ?_⟩
  · intro st o now
    cases o <;> simp [connectStep, push_fst_open_total]
  · intro st o now ho
    cases o <;> simp_all [connectStep, ConnectOutcome.isFailure]
  · intro os hos
    have hstart : emptyPool.queue.length +
        (os.filter (fun p => p.1 == ConnectOutcome.success)).length ≤
          s.max_size := by
      have hle := List.length_filter_le
        (fun p : ConnectOutcome × Nat => p.1 == ConnectOutcome.success) os
      simp [emptyPool]
      omega
    obtain ⟨h1, h2, h3⟩ := runConnects_counters s os emptyPool hstart
    have hsum := filter_success_add_filter_failure os
    refine ⟨?_, ?_, ?_⟩
    · simpa [emptyPool, Stats.zero] using h1
    · simpa [emptyPool, Stats.zero] using h2
    · have h1z : (runConnects s emptyPool os).stats.open_total = os.length := by
        simpa [emptyPool, Stats.zero] using h1
      have h2z : (runConnects s emptyPool os).stats.drop_total =
          (os.filter (fun p => p.1.isFailure)).length := by
        simpa [emptyPool, Stats.zero] using h2
      rw [h1z, h2z]
      omega

/-- Witness for the attempt accounting: one success and two recoverable
failures yield open_total 3 and drop_total 2, so one connection was
created. -/
theorem open_total_counts_attempts_witness :
    (runConnects scenarioSettings emptyPool
      [(ConnectOutcome.success, 0), (ConnectOutcome.timeoutErr, 1),
       (ConnectOutcome.connError, 2)]).stats.open_total = 3 ∧
    (runConnects scenarioSettings emptyPool
      [(ConnectOutcome.success, 0), (ConnectOutcome.timeoutErr, 1),
       (ConnectOutcome.connError, 2)]).stats.drop_total = 2 := by
  have h := (open_total_counts_attempts scenarioSettings).2.2
    [(ConnectOutcome.success, 0), (ConnectOutcome.timeoutErr, 1),
     (ConnectOutcome.connError, 2)] (by decide)
  exact ⟨h.1, by simpa using h.2.1⟩

end PgPool
